import Mathlib

/-!
Shallow embedding of the streamsnatcher download orchestrator.

Namespace map: `Download` models `src/download.py`, `DownloadEngine` models
`src/streamsaavy_app/download_engine.py`, `Downloader` models
`src/streamsaavy_app/downloader.py`, `Web` models
`src/streamsaavy_app/web.py`, and `Ui` models `src/streamsaavy_app/ui.py`.

Python strings are `String` or `List Char`; float percentages are rationals,
which is exact for the comparisons, clamping, and short decimal token
parsing the code performs.  The progress monitors drive callbacks; the
embedding records each callback invocation as an `Event` in emission order.
File-system probes (the well-known cookies file) enter as boolean inputs.
-/

/-- Python `str.split()` with no separator: split on runs of whitespace and
drop empty pieces.  Accumulator-based worker over character lists. -/
def splitWsAux : List Char → List Char → List (List Char)
  | [], acc => if acc = [] then [] else [acc.reverse]
  | c :: cs, acc =>
    if c.isWhitespace then
      if acc = [] then splitWsAux cs [] else acc.reverse :: splitWsAux cs []
    else splitWsAux cs (c :: acc)

/-- Python `line.split()` on the characters of a line. -/
def splitWs (cs : List Char) : List (List Char) := splitWsAux cs []

/-- Python `part.strip("%")`: drop leading and trailing `%` characters. -/
def stripPct (t : List Char) : List Char :=
  ((t.dropWhile (· == '%')).reverse.dropWhile (· == '%')).reverse

/-- Python `part.endswith("%")`. -/
def endsPct (t : List Char) : Bool := t.reverse.head? == some '%'

/-- Numeric value of a run of decimal digit characters. -/
def digitsVal (ds : List Char) : Nat :=
  ds.foldl (fun a c => a * 10 + (c.toNat - 48)) 0

/-- Unsigned decimal shapes accepted by the runtime float conversion the
monitors apply to percent tokens: digits, optionally a point and further
digits, with at least one digit overall.  Exponent and special forms the
engine never emits are out of scope of the tokens being parsed here. -/
def parseUnsigned? (cs : List Char) : Option Rat :=
  let ip := cs.takeWhile Char.isDigit
  match cs.dropWhile Char.isDigit with
  | [] => if ip.isEmpty then none else some ((digitsVal ip : Nat) : Rat)
  | '.' :: frac =>
    if (ip.isEmpty && frac.isEmpty) || !frac.all Char.isDigit then none
    else some ((digitsVal ip : Rat) + (digitsVal frac : Rat) / (10 : Rat) ^ frac.length)
  | _ => none

/-- Signed decimal: the `float(...)` conversion both monitors apply to a
stripped percent token, returning `none` where Python raises `ValueError`. -/
def parseFloat? (cs : List Char) : Option Rat :=
  match cs with
  | '+' :: rest => parseUnsigned? rest
  | '-' :: rest => (parseUnsigned? rest).map (fun q => -q)
  | _ => parseUnsigned? cs

/-- Python `needle in hay` for strings, at the character-list level. -/
def containsSub (needle hay : List Char) : Bool :=
  hay.tails.any (fun t => needle.isPrefixOf t)

/-- Python `line.strip()`: drop leading and trailing whitespace. -/
def pyStrip (s : String) : String :=
  String.mk (((s.toList.dropWhile Char.isWhitespace).reverse.dropWhile Char.isWhitespace).reverse)

/-- Python `s.lower()`. -/
def pyLower (s : String) : String := String.mk (s.toList.map Char.toLower)

/-- Python `s.endswith(suffix)`. -/
def pyEndsWith (s suffix : String) : Bool := suffix.toList.isSuffixOf s.toList

/-- One recorded callback invocation of the progress monitors.  `logLine`
is a `log_handler` call echoing an engine line, `progress` a
`progress_handler` call, `stage` the `log_handler` call made by the
once-per-job transcoding branch, and `finished` is the normalized
finished-with-output-path event of the spec's taxonomy, which the
subprocess monitors can in principle be compared against. -/
inductive Event where
  | logLine (s : String)
  | progress (p : Rat)
  | stage (s : String)
  | finished (path : Option String)
deriving DecidableEq

/-- Whether an event is the once-per-job stage notice. -/
def Event.isStage : Event → Bool
  | .stage _ => true
  | _ => false

/-- Percent payload of a progress event. -/
def Event.progressVal? : Event → Option Rat
  | .progress p => some p
  | _ => none

/-- Number of stage events in a recorded event stream. -/
def stageCount (evs : List Event) : Nat := (evs.filter Event.isStage).length

/-- Client identification string shared by all variants. -/
def USER_AGENT : String :=
  "Mozilla/5.0 (Windows NT 10.0; Win64; x64) AppleWebKit/537.36 (KHTML, like Gecko) Chrome/122.0 Safari/537.36"

namespace DownloadEngine

/-- Options attached to every command, `BASE_ARGS` of download_engine.py. -/
def BASE_ARGS : List String :=
  ["--newline",
   "--extractor-args", "youtube:player_client=web",
   "--user-agent", USER_AGENT,
   "--compat-options", "prefer-free-formats,manifestless",
   "--write-thumbnail", "--write-description", "--write-info-json",
   "--no-playlist"]

/-- Menu-choice translation table `CHOICE_TO_MODE`, as a lookup. -/
def CHOICE_TO_MODE (choice : String) : Option String :=
  if choice = "1" then some "single_song"
  else if choice = "2" then some "single_video"
  else if choice = "3" then some "playlist_song"
  else if choice = "4" then some "playlist_video"
  else none

/-- Per-mode option table `MODE_TO_ARGS`, as a lookup. -/
def MODE_TO_ARGS (mode : String) : Option (List String) :=
  if mode = "single_song" then
    some ["-f", "bestaudio[ext=m4a]/bestaudio[ext=webm]/best[protocol*=https]",
          "--extract-audio", "--audio-format", "mp3", "--audio-quality", "0.256"]
  else if mode = "single_video" then
    some ["-f", "bestvideo[ext=mp4][height<=1080]+bestaudio[ext=m4a]/best[ext=mp4]/best",
          "--merge-output-format", "mp4"]
  else if mode = "playlist_song" then
    some ["--yes-playlist",
          "-f", "bestaudio[ext=m4a]/bestaudio[ext=webm]/best[protocol*=https]",
          "--extract-audio", "--audio-format", "mp3", "--audio-quality", "0.256"]
  else if mode = "playlist_video" then
    some ["--yes-playlist",
          "-f", "bestvideo[ext=mp4][height<=1080]+bestaudio[ext=m4a]/best[ext=mp4]/best",
          "--merge-output-format", "mp4"]
  else none

/-- Cookie options of `build_command`: Python truthiness of `cookies_path`
(`None` or the empty string are falsy) selects the fallback, which consults
whether the well-known `~/.yt-dlp-cookies.txt` exists; that file probe is
I/O and enters as the boolean `home_cookies_exists`. -/
def cookieArgs (cookies_path : Option String) (home_cookies_exists : Bool) : List String :=
  match cookies_path with
  | some p =>
    if p = "" then
      if home_cookies_exists then ["--cookies-from-browser", "Chrome"] else []
    else ["--cookies", p]
  | none =>
    if home_cookies_exists then ["--cookies-from-browser", "Chrome"] else []

/-- Python truthiness of the optional cookies path. -/
def cpTruthy (cookies_path : Option String) : Bool :=
  !(cookies_path.getD "" == "")

/-- `build_command` of download_engine.py: the full yt-dlp argument list for
a mode, or the `ValueError` message for an unsupported mode. -/
def build_command (mode url destination : String) (cookies_path : Option String)
    (home_cookies_exists : Bool) : Except String (List String) :=
  match MODE_TO_ARGS mode with
  | none => Except.error ("Unsupported download mode: " ++ mode)
  | some mode_args =>
    Except.ok (["yt-dlp"] ++ BASE_ARGS ++ cookieArgs cookies_path home_cookies_exists
      ++ ["-P", destination] ++ mode_args ++ [url])

/-- `create_command` of download_engine.py: translate a legacy menu choice
and build the command, failing on unknown selections. -/
def create_command (choice url destination : String) (cookies_path : Option String)
    (home_cookies_exists : Bool) : Except String (List String) :=
  match CHOICE_TO_MODE choice with
  | none => Except.error ("Unknown selection: " ++ choice)
  | some mode => build_command mode url destination cookies_path home_cookies_exists

/-- Spec-side reading of the registry taxonomy for the engine's string
modes: which members of the closed mode set are playlist modes. -/
def specModeIsPlaylist (mode : String) : Bool :=
  mode == "playlist_song" || mode == "playlist_video"

/-- Percent extraction attempted on one whitespace-split token by the
monitor loop body: the token must end in `%` and its stripped content must
parse as a float. -/
def tokenPct (t : List Char) : Option Rat :=
  if endsPct t then parseFloat? (stripPct t) else none

/-- The monitor's scan over the split parts of a line: first token ending
in `%` whose stripped content parses wins; a parse failure `continue`s. -/
def findPercent : List (List Char) → Option Rat
  | [] => none
  | t :: rest =>
    if endsPct t then
      match parseFloat? (stripPct t) with
      | some v => some v
      | none => findPercent rest
    else findPercent rest

/-- Percent reported for one (already stripped) line, guarded by the
`"%" in line` check of the monitor. -/
def linePercent (line : String) : Option Rat :=
  if line.toList.contains '%' then findPercent (splitWs line.toList) else none

/-- The transcoding markers the monitor greps each line for. -/
def TRIGGERS : List String := ["Merging formats into", "Transcoding", "Extracting audio"]

/-- Whether a line contains one of the transcoding markers. -/
def containsTrigger (line : String) : Bool :=
  TRIGGERS.any (fun t => containsSub t.toList line.toList)

/-- The fixed notice emitted once per job by the transcoding branch. -/
def transcodeNotice : String := "Transcoding, please wait..."

/-- The fixed notice emitted after the engine stream ends. -/
def completionNotice : String := "Download completed successfully!"

/-- One iteration of `monitor_progress` over a raw output line, with both
handlers installed: strip the line, skip it when empty, echo it to the log
handler, report at most one percent value, and emit the transcoding notice
the first time a marker is seen.  Returns the updated
`processing_complete` flag and the recorded callback invocations. -/
def processLine (processing_complete : Bool) (raw : String) : Bool × List Event :=
  let line := pyStrip raw
  if line = "" then (processing_complete, [])
  else
    let evs := [Event.logLine line]
    let evs :=
      match linePercent line with
      | some p => evs ++ [Event.progress p]
      | none => evs
    if containsTrigger line then
      if processing_complete then (processing_complete, evs)
      else (true, evs ++ [Event.stage transcodeNotice])
    else (processing_complete, evs)

/-- The monitor's loop over the engine's output lines. -/
def monitorBody : Bool → List String → List Event
  | _, [] => []
  | pc, l :: rest =>
    let step := processLine pc l
    step.2 ++ monitorBody step.1 rest

/-- `monitor_progress` over a finished stream of raw lines: the loop, then
the end-of-stream behavior, namely a synthetic 100.0 percent report
followed by the completion notice on the log handler. -/
def monitorEvents (lines : List String) : List Event :=
  monitorBody false lines ++ [Event.progress 100, Event.logLine completionNotice]

end DownloadEngine

namespace Download

/-- Cookie options of the legacy `create_command`; identical logic to the
download_engine variant, including Python truthiness of the path. -/
def cookieArgs (cookies_path : Option String) (home_cookies_exists : Bool) : List String :=
  match cookies_path with
  | some p =>
    if p = "" then
      if home_cookies_exists then ["--cookies-from-browser", "Chrome"] else []
    else ["--cookies", p]
  | none =>
    if home_cookies_exists then ["--cookies-from-browser", "Chrome"] else []

/-- `create_command` of download.py.  Its if/elif chain over the choice
token has no final else, so Python returns `None` for any other token;
the embedding mirrors that with an `Option`. -/
def create_command (choice url destination : String) (cookies_path : Option String)
    (home_cookies_exists : Bool) : Option (List String) :=
  let base := ["yt-dlp", "--newline",
    "--extractor-args", "youtube:player_client=web",
    "--user-agent", USER_AGENT]
  let base := base ++ cookieArgs cookies_path home_cookies_exists
  let base := base ++ ["-P", destination,
    "--write-thumbnail", "--write-description", "--write-info-json",
    "--compat-options",
    "no-youtube-channel-redirect,no-youtube-live-check,prefer-free-formats,manifestless"]
  let fs := "bestaudio[ext=m4a]/bestaudio[ext=webm]/best[protocol*=https]"
  if choice = "1" then
    some (base ++ ["--remux-video", "mp4"] ++ ["-f", fs, "--no-playlist", url])
  else if choice = "2" then
    some (base ++ ["-f", fs, "--extract-audio", "--audio-format", "mp3",
      "--audio-quality", "0.256", "--no-playlist"] ++ [url])
  else if choice = "3" then
    some (base ++ ["--remux-video", "mp4", "--yes-playlist"] ++ ["-f", fs, url])
  else if choice = "4" then
    some (base ++ ["-f", fs, "--extract-audio", "--audio-format", "mp3",
      "--audio-quality", "0.256", "--yes-playlist"] ++ [url])
  else none

/-- Percent extraction attempted on one token by the legacy monitor loop
body: any token containing `%` qualifies, and `%` is stripped from both
ends before parsing. -/
def tokenPct (t : List Char) : Option Rat :=
  if t.contains '%' then parseFloat? (stripPct t) else none

/-- The legacy monitor's scan over the split parts of a line: first token
containing `%` whose stripped content parses wins; a `ValueError` is
swallowed and the scan continues. -/
def findPercent : List (List Char) → Option Rat
  | [] => none
  | t :: rest =>
    if t.contains '%' then
      match parseFloat? (stripPct t) with
      | some v => some v
      | none => findPercent rest
    else findPercent rest

/-- Percent reported for one (already stripped) line by the legacy
monitor, guarded by its `"%" in line` check. -/
def linePercent (line : String) : Option Rat :=
  if line.toList.contains '%' then findPercent (splitWs line.toList) else none

end Download

namespace Downloader

/-- The supported download modes of downloader.py (`DownloadMode`). -/
inductive DownloadMode where
  | single_song
  | single_video
  | playlist_songs
  | playlist_videos
  | compatibility
deriving DecidableEq

/-- `DownloadMode.is_audio`. -/
def DownloadMode.is_audio : DownloadMode → Bool
  | .single_song => true
  | .playlist_songs => true
  | .compatibility => true
  | _ => false

/-- `DownloadMode.is_playlist`. -/
def DownloadMode.is_playlist : DownloadMode → Bool
  | .playlist_songs => true
  | .playlist_videos => true
  | _ => false

/-- `DownloadRequest` of downloader.py, with its dataclass defaults.  The
save path is the textual path the request was built with. -/
structure DownloadRequest where
  url : String
  save_path : String
  mode : DownloadMode
  audio_bitrate : String := "256K"
  video_resolution : String := "1080"
  embed_thumbnail : Bool := true
  embed_metadata : Bool := true
  cookies_path : Option String := none
deriving DecidableEq

/-- `DownloadRequest.normalized_audio_bitrate`. -/
def DownloadRequest.normalized_audio_bitrate (r : DownloadRequest) : String :=
  let bitrate := pyLower (pyStrip r.audio_bitrate)
  if pyEndsWith bitrate "k" then bitrate else bitrate ++ "k"

/-- `DownloadRequest.normalized_video_resolution`. -/
def DownloadRequest.normalized_video_resolution (r : DownloadRequest) : String :=
  let digits := String.mk (r.video_resolution.toList.filter Char.isDigit)
  if digits = "" then "1080" else digits

/-- `AUDIO_FORMAT_SELECTOR` of downloader.py. -/
def AUDIO_FORMAT_SELECTOR : String :=
  "bestaudio[ext=m4a]/bestaudio[ext=webm]/best[protocol*=https]"

/-- `VIDEO_FORMAT_SELECTOR_TEMPLATE` instantiated at a height. -/
def VIDEO_FORMAT_SELECTOR_TEMPLATE (height : String) : String :=
  "bestvideo[ext=mp4][height<=" ++ height ++ "][fps<=60]+bestaudio[ext=m4a]/" ++
    "bestvideo[height<=" ++ height ++ "][fps<=60]+bestaudio/best[ext=mp4]/best"

/-- One yt-dlp post-processing step, with the option names used by
downloader.py (the source spells `preferedformat` this way). -/
structure Postprocessor where
  key : String
  preferredcodec : Option String := none
  preferredquality : Option String := none
  preferedformat : Option String := none
deriving DecidableEq

/-- The per-branch options `_audio_opts` / `_video_opts` contribute via
`opts.update(...)`. -/
structure BranchOpts where
  format : String
  merge_output_format : Option String := none
  postprocessors : List Postprocessor
  postprocessor_args : List (String × List String)
  final_ext : String
deriving DecidableEq

/-- The explicit yt-dlp option dictionary assembled by `_build_ydl_opts`.
The progress hooks are callables and are outside the pure option record. -/
structure YdlOpts where
  outtmpl : String
  concurrent_fragment_downloads : Nat
  noplaylist : Bool
  quiet : Bool
  no_warnings : Bool
  ignoreerrors : Bool
  extractor_args : List (String × List (String × List String))
  user_agent : String
  compat_opts : List String
  cookiefile : Option String
  format : String
  merge_output_format : Option String
  postprocessors : List Postprocessor
  postprocessor_args : List (String × List String)
  final_ext : String
deriving DecidableEq

/-- `_audio_opts` of downloader.py. -/
def audio_opts (r : DownloadRequest) : BranchOpts :=
  let bitrate := r.normalized_audio_bitrate
  let quality :=
    let q := String.mk (bitrate.toList.filter Char.isDigit)
    if q = "" then "256" else q
  { format := AUDIO_FORMAT_SELECTOR
    merge_output_format := none
    postprocessors := [{ key := "FFmpegExtractAudio",
                         preferredcodec := some "mp3",
                         preferredquality := some quality }]
    postprocessor_args := [("FFmpegExtractAudio", ["-b:a", bitrate, "-ar", "44100"])]
    final_ext := "mp3" }

/-- `_compatibility_opts` of downloader.py delegates to the audio options. -/
def compatibility_opts (r : DownloadRequest) : BranchOpts := audio_opts r

/-- `_video_opts` of downloader.py. -/
def video_opts (r : DownloadRequest) : BranchOpts :=
  let resolution := r.normalized_video_resolution
  { format := VIDEO_FORMAT_SELECTOR_TEMPLATE resolution
    merge_output_format := some "mp4"
    postprocessors := [{ key := "FFmpegVideoConvertor", preferedformat := some "mp4" }]
    postprocessor_args := [("FFmpegVideoConvertor",
      ["-map", "0:v:0?", "-map", "0:a:0?",
       "-vf", "scale=-2:" ++ resolution ++ ":force_original_aspect_ratio=decrease",
       "-c:v", "libx264", "-preset", "medium", "-crf", "19",
       "-c:a", "aac", "-b:a", "192k",
       "-movflags", "+faststart"])]
    final_ext := "mp4" }

/-- `_build_ydl_opts` of downloader.py: base options, a cookie file when
one was uploaded, the mode branch's options, then the optional thumbnail
and metadata post-processing steps appended in that order. -/
def build_ydl_opts (r : DownloadRequest) : YdlOpts :=
  let branch :=
    if r.mode = DownloadMode.compatibility then compatibility_opts r
    else if r.mode.is_audio then audio_opts r
    else video_opts r
  let pps := branch.postprocessors
  let pps :=
    if r.embed_thumbnail && r.mode.is_audio then
      pps ++ [({ key := "EmbedThumbnail" } : Postprocessor)]
    else pps
  let pps :=
    if r.embed_metadata then pps ++ [({ key := "FFmpegMetadata" } : Postprocessor)]
    else pps
  { outtmpl := r.save_path ++ "/%(title)s.%(ext)s"
    concurrent_fragment_downloads := 4
    noplaylist := !r.mode.is_playlist
    quiet := true
    no_warnings := true
    ignoreerrors := decide (r.mode = DownloadMode.compatibility)
    extractor_args := [("youtube", [("player_client", ["web"])])]
    user_agent := USER_AGENT
    compat_opts := ["manifestless"]
    cookiefile := r.cookies_path
    format := branch.format
    merge_output_format := branch.merge_output_format
    postprocessors := pps
    postprocessor_args := branch.postprocessor_args
    final_ext := branch.final_ext }

end Downloader

namespace Web

/-- `DownloadState` of web.py: the shared job state polled by the web
front-end.  The lock only serializes access and carries no data. -/
structure DownloadState where
  active : Bool
  progress : Rat
  status : String
  logs : List String
  last_error : Option String
deriving DecidableEq

/-- The module-level `state = DownloadState()` with its dataclass
defaults. -/
def initialState : DownloadState :=
  { active := false, progress := 0, status := "idle", logs := [], last_error := none }

/-- `DownloadState.set_progress`: store the value clamped to the unit
percent range. -/
def DownloadState.set_progress (st : DownloadState) (value : Rat) : DownloadState :=
  { st with progress := max 0 (min value 100) }

/-- `DownloadState.add_log`: append and keep only the newest 400 lines. -/
def DownloadState.add_log (st : DownloadState) (message : String) : DownloadState :=
  let logs := st.logs ++ [message]
  { st with logs := if logs.length > 400 then logs.drop (logs.length - 400) else logs }

end Web

namespace Ui

/-- The clamp `StreamSaavyApp._update_progress` applies before storing a
percentage into the progress variable. -/
def bounded_progress (percentage : Rat) : Rat := max 0 (min percentage 100)

end Ui

namespace Downloader

/-- `BackgroundDownloader` of downloader.py; `thread_alive` is whether the
worker thread exists and is alive (`is_running`). -/
structure BackgroundDownloader where
  thread_alive : Bool
deriving DecidableEq

/-- `BackgroundDownloader.start`.  The shared web `DownloadState` is
threaded through so the embedding records what `start` does to it: the
admission-failure path raises `RuntimeError` before performing any
mutation.  The first component is the message of the exception raised, if
any; on success the worker thread is recorded as alive and the state is
untouched at return time (the worker mutates it only later). -/
def BackgroundDownloader.start (bg : BackgroundDownloader) (st : Web.DownloadState) :
    Option String × BackgroundDownloader × Web.DownloadState :=
  if bg.thread_alive then
    (some "A download is already in progress.", bg, st)
  else
    (none, { thread_alive := true }, st)

end Downloader
/-- Spec-side reading of the plan-builder's authentication step: the
credentials reference a plan is said to carry, as a function of the
supplied credentials file and of whether the well-known default
credentials file exists on disk — an explicit supplied file, else the
default file when it exists, else none. -/
def specAuthReference (supplied : Option String) (default_exists : Bool) : Option String :=
  match supplied with
  | some p => some p
  | none => if default_exists then some "~/.yt-dlp-cookies.txt" else none

theorem splitWsAux_sub (cs : List Char) : ∀ (acc t : List Char), t ∈ splitWsAux cs acc → ∀ c ∈ t, c ∈ cs ∨ c ∈ acc := by
  induction cs with
  | nil =>
    intro acc t ht c hc
    unfold splitWsAux at ht
    by_cases h : acc = []
    · simp [h] at ht
    · simp [h] at ht
      subst ht
      exact Or.inr (List.mem_reverse.mp hc)
  | cons d ds ih =>
    intro acc t ht c hc
    unfold splitWsAux at ht
    by_cases hw : d.isWhitespace
    · by_cases h : acc = []
      · simp [hw, h] at ht
        rcases ih [] t ht c hc with h1 | h1
        · exact Or.inl (List.mem_cons_of_mem _ h1)
        · simp at h1
      · simp [hw, h] at ht
        rcases ht with ht | ht
        · subst ht
          exact Or.inr (List.mem_reverse.mp hc)
        · rcases ih [] t ht c hc with h1 | h1
          · exact Or.inl (List.mem_cons_of_mem _ h1)
          · simp at h1
    · simp [hw] at ht
      rcases ih (d :: acc) t ht c hc with h1 | h1
      · exact Or.inl (List.mem_cons_of_mem _ h1)
      · rcases List.mem_cons.mp h1 with h2 | h2
        · exact Or.inl (h2 ▸ List.mem_cons_self _ _)
        · exact Or.inr h2

theorem splitWs_sub {cs t : List Char} (ht : t ∈ splitWs cs) {c : Char} (hc : c ∈ t) :
    c ∈ cs := by
  rcases splitWsAux_sub cs [] t ht c hc with h | h
  · exact h
  · simp at h

theorem endsPct_mem {t : List Char} (h : endsPct t = true) : '%' ∈ t := by
  unfold endsPct at h
  rcases hr : t.reverse with _ | ⟨c, cs⟩
  · rw [hr] at h; simp at h
  · rw [hr] at h
    simp at h
    have hm : '%' ∈ t.reverse := by
      rw [hr, h]; exact List.mem_cons_self _ _
    exact List.mem_reverse.mp hm

theorem findPercentEngine_eq (parts : List (List Char)) :
    DownloadEngine.findPercent parts = (parts.filterMap DownloadEngine.tokenPct).head? := by
  induction parts with
  | nil => rfl
  | cons t rest ih =>
    unfold DownloadEngine.findPercent
    rw [List.filterMap_cons]
    by_cases h : endsPct t = true
    · simp only [DownloadEngine.tokenPct, h, if_true]
      cases hp : parseFloat? (stripPct t) with
      | none => simpa [hp] using ih
      | some v => simp [hp]
    · simp only [DownloadEngine.tokenPct, h]
      simp only [Bool.false_eq_true] at h
      simp [h, ih]
theorem tokenPctEngine_none {cs : List Char} (h : ¬ '%' ∈ cs) {t : List Char}
    (ht : t ∈ splitWs cs) : DownloadEngine.tokenPct t = none := by
  unfold DownloadEngine.tokenPct
  by_cases he : endsPct t = true
  · exact absurd (splitWs_sub ht (endsPct_mem he)) h
  · rw [if_neg he]

theorem tokenPctLegacy_none {cs : List Char} (h : ¬ '%' ∈ cs) {t : List Char}
    (ht : t ∈ splitWs cs) : Download.tokenPct t = none := by
  unfold Download.tokenPct
  by_cases he : t.contains '%' = true
  · exact absurd (splitWs_sub ht (List.mem_of_elem_eq_true he)) h
  · rw [if_neg he]

theorem linePercentEngine_eq (line : String) :
    DownloadEngine.linePercent line =
      ((splitWs line.toList).filterMap DownloadEngine.tokenPct).head? := by
  unfold DownloadEngine.linePercent
  by_cases h : line.toList.contains '%' = true
  · rw [if_pos h, findPercentEngine_eq]
  · rw [if_neg h]
    have hn : ¬ '%' ∈ line.toList := fun hm => h (List.elem_eq_true_of_mem hm)
    rw [List.filterMap_eq_nil_iff.mpr (fun t ht => tokenPctEngine_none hn ht)]
    rfl

theorem findPercentLegacy_eq (parts : List (List Char)) :
    Download.findPercent parts = (parts.filterMap Download.tokenPct).head? := by
  induction parts with
  | nil => rfl
  | cons t rest ih =>
    unfold Download.findPercent
    rw [List.filterMap_cons]
    by_cases h : t.contains '%' = true
    · simp only [Download.tokenPct, h, if_true]
      cases hp : parseFloat? (stripPct t) with
      | none => simpa [hp] using ih
      | some v => simp [hp]
    · have hnone : Download.tokenPct t = none := by
        unfold Download.tokenPct
        rw [if_neg h]
      rw [if_neg h, ih, hnone]

theorem linePercentLegacy_eq (line : String) :
    Download.linePercent line =
      ((splitWs line.toList).filterMap Download.tokenPct).head? := by
  unfold Download.linePercent
  by_cases h : line.toList.contains '%' = true
  · rw [if_pos h, findPercentLegacy_eq]
  · rw [if_neg h]
    have hn : ¬ '%' ∈ line.toList := fun hm => h (List.elem_eq_true_of_mem hm)
    rw [List.filterMap_eq_nil_iff.mpr (fun t ht => tokenPctLegacy_none hn ht)]
    rfl

theorem processLine_progress (pc : Bool) (raw : String) :
    (DownloadEngine.processLine pc raw).2.filterMap Event.progressVal? =
      ((splitWs (pyStrip raw).toList).filterMap DownloadEngine.tokenPct).head?.toList := by
  unfold DownloadEngine.processLine
  rw [← linePercentEngine_eq]
  by_cases h0 : (pyStrip raw) = ""
  · simp [h0, DownloadEngine.linePercent]
  · cases hlp : DownloadEngine.linePercent (pyStrip raw) with
    | none =>
      by_cases ht : DownloadEngine.containsTrigger (pyStrip raw) = true <;>
        cases pc <;>
          simp [h0, hlp, ht, Event.progressVal?]
    | some p =>
      by_cases ht : DownloadEngine.containsTrigger (pyStrip raw) = true <;>
        cases pc <;>
          simp [h0, hlp, ht, Event.progressVal?]
theorem stageCount_append (a b : List Event) :
    stageCount (a ++ b) = stageCount a + stageCount b := by
  simp [stageCount, List.filter_append]

theorem processLine_true_stage (raw : String) :
    (DownloadEngine.processLine true raw).1 = true ∧
      stageCount (DownloadEngine.processLine true raw).2 = 0 := by
  unfold DownloadEngine.processLine
  by_cases h0 : (pyStrip raw) = ""
  · simp [h0, stageCount]
  · cases hlp : DownloadEngine.linePercent (pyStrip raw) with
    | none =>
      by_cases ht : DownloadEngine.containsTrigger (pyStrip raw) = true <;>
        simp [h0, hlp, ht, stageCount, Event.isStage]
    | some p =>
      by_cases ht : DownloadEngine.containsTrigger (pyStrip raw) = true <;>
        simp [h0, hlp, ht, stageCount, Event.isStage]

theorem monitorBody_true_stage (lines : List String) :
    stageCount (DownloadEngine.monitorBody true lines) = 0 := by
  induction lines with
  | nil => rfl
  | cons l rest ih =>
    unfold DownloadEngine.monitorBody
    obtain ⟨h1, h2⟩ := processLine_true_stage l
    rw [stageCount_append, h1, h2, ih]

theorem containsTrigger_ne_empty {raw : String} (h : DownloadEngine.containsTrigger raw = true) :
    raw ≠ "" := by
  intro he
  rw [he] at h
  exact absurd h (by decide)

theorem processLine_false_stage {raw : String}
    (h : DownloadEngine.containsTrigger (pyStrip raw) = true) :
    (DownloadEngine.processLine false raw).1 = true ∧
      stageCount (DownloadEngine.processLine false raw).2 = 1 := by
  unfold DownloadEngine.processLine
  have h0 : (pyStrip raw) ≠ "" := containsTrigger_ne_empty h
  cases hlp : DownloadEngine.linePercent (pyStrip raw) with
  | none => simp [h0, hlp, h, stageCount, Event.isStage]
  | some p => simp [h0, hlp, h, stageCount, Event.isStage]

theorem processLine_no_finished (pc : Bool) (raw : String) (p : Option String) :
    Event.finished p ∉ (DownloadEngine.processLine pc raw).2 := by
  unfold DownloadEngine.processLine
  by_cases h0 : (pyStrip raw) = ""
  · simp [h0]
  · cases hlp : DownloadEngine.linePercent (pyStrip raw) with
    | none =>
      by_cases ht : DownloadEngine.containsTrigger (pyStrip raw) = true <;>
        cases pc <;>
          simp [h0, hlp, ht]
    | some q =>
      by_cases ht : DownloadEngine.containsTrigger (pyStrip raw) = true <;>
        cases pc <;>
          simp [h0, hlp, ht]

theorem monitorBody_no_finished (pc : Bool) (lines : List String) (p : Option String) :
    Event.finished p ∉ DownloadEngine.monitorBody pc lines := by
  induction lines generalizing pc with
  | nil => simp [DownloadEngine.monitorBody]
  | cons l rest ih =>
    unfold DownloadEngine.monitorBody
    intro hmem
    rcases List.mem_append.mp hmem with hm | hm
    · exact processLine_no_finished pc l p hm
    · exact ih _ hm
/-- C4 counterexample: on an engine stream that ends with no lines at all,
the monitor's end-of-stream behavior is a synthetic Progress event followed
by the completion log notice, not a Finished event followed by Progress:
no Finished event is emitted at all, and the synthetic 100 percent report
precedes the completion notice rather than following it. -/
theorem C4_counterexample :
    DownloadEngine.monitorEvents [] =
        [Event.progress 100, Event.logLine DownloadEngine.completionNotice] ∧
      Event.finished none ∉ DownloadEngine.monitorEvents [] ∧
      DownloadEngine.monitorEvents [] ≠
        [Event.logLine DownloadEngine.completionNotice, Event.progress 100] := by
  refine ⟨rfl, by decide, by decide⟩

/-- C4 (amended): when the engine's output stream ends, the monitor
unconditionally emits a synthetic Progress of 100.0 and then the fixed
completion notice on the log handler, in that order, after the per-line
events; it emits no Finished event anywhere and does not condition the
tail on whether a finished notice was already seen. -/
theorem C4_end_of_stream (lines : List String) :
    DownloadEngine.monitorEvents lines =
        DownloadEngine.monitorBody false lines ++
          [Event.progress 100, Event.logLine DownloadEngine.completionNotice] ∧
      ∀ p, Event.finished p ∉ DownloadEngine.monitorEvents lines := by
  refine ⟨rfl, fun p hmem => ?_⟩
  rcases List.mem_append.mp hmem with hm | hm
  · exact monitorBody_no_finished false lines p hm
  · simp at hm

/-- C5: feeding the monitor any nonempty stream of lines that each contain
a transcoding marker yields exactly one stage event for the whole job. -/
theorem C5_stage_idempotent (lines : List String) (h1 : lines ≠ [])
    (h2 : ∀ l ∈ lines, DownloadEngine.containsTrigger (pyStrip l) = true) :
    stageCount (DownloadEngine.monitorEvents lines) = 1 := by
  rcases lines with _ | ⟨l, rest⟩
  · exact absurd rfl h1
  · unfold DownloadEngine.monitorEvents DownloadEngine.monitorBody
    obtain ⟨hpc, hcnt⟩ := processLine_false_stage (h2 l (List.mem_cons_self _ _))
    rw [stageCount_append, stageCount_append, hpc, hcnt, monitorBody_true_stage]
    rfl

/-- C5 witness: two marker lines still produce exactly one stage event. -/
theorem C5_stage_idempotent_witness :
    (["Transcoding item", "Extracting audio now"] : List String) ≠ [] ∧
      stageCount (DownloadEngine.monitorEvents ["Transcoding item", "Extracting audio now"]) = 1 :=
  ⟨by decide,
    C5_stage_idempotent ["Transcoding item", "Extracting audio now"] (by decide)
      (by intro l hl
          rcases hl with _ | ⟨_, hl⟩
          · decide
          · rcases hl with _ | ⟨_, hl⟩
            · decide
            · cases hl)⟩

/-- C6 counterexample: the two monitors disagree with the claim's
%-suffixed-token reading.  On the line whose split parts are the
%-prefixed token and a later %-suffixed token, the legacy CLI monitor
reports 50, parsed from the token that merely contains a percent sign,
while the first parseable %-suffixed token of the line yields 60. -/
theorem C6_counterexample :
    Download.linePercent "%50 60%" = some 50 ∧
      ((splitWs ("%50 60%".toList)).filterMap DownloadEngine.tokenPct).head? = some 60 ∧
      (50 : Rat) ≠ 60 := by
  refine ⟨by decide, by decide, by norm_num⟩

/-- C6 (amended): per line, the GUI engine monitor reports exactly the
first whitespace-split token that ends in a percent sign and whose
percent-stripped content parses as a float, skipping malformed tokens and
still considering later ones; the legacy CLI monitor does the same except
that any token containing a percent sign qualifies.  Neither monitor ever
fails on a malformed token. -/
theorem C6_percent_token :
    (∀ (pc : Bool) (raw : String),
        (DownloadEngine.processLine pc raw).2.filterMap Event.progressVal? =
          ((splitWs (pyStrip raw).toList).filterMap DownloadEngine.tokenPct).head?.toList) ∧
      ∀ line : String,
        Download.linePercent line = ((splitWs line.toList).filterMap Download.tokenPct).head? :=
  ⟨processLine_progress, linePercentLegacy_eq⟩
/-- C2: while the worker thread is alive, a second `start` raises the
already-running error synchronously and returns with the downloader and
the shared job state completely unchanged. -/
theorem C2_already_running (bg : Downloader.BackgroundDownloader) (st : Web.DownloadState)
    (h : bg.thread_alive = true) :
    bg.start st = (some "A download is already in progress.", bg, st) := by
  unfold Downloader.BackgroundDownloader.start
  rw [if_pos h]

/-- C2 witness at a running downloader and the initial web state. -/
theorem C2_already_running_witness :
    (Downloader.BackgroundDownloader.mk true).thread_alive = true ∧
      (Downloader.BackgroundDownloader.mk true).start Web.initialState =
        (some "A download is already in progress.",
          Downloader.BackgroundDownloader.mk true, Web.initialState) :=
  ⟨rfl, C2_already_running (Downloader.BackgroundDownloader.mk true) Web.initialState rfl⟩

/-- C3: for the unsupported mode token "5", the legacy create_command of
download.py silently returns the null value instead of failing, while the
download_engine variant rejects it with an unknown-selection error before
any job starts. -/
theorem C3_unknown_token :
    Download.create_command "5" "https://example/v" "/tmp/out" none false = none ∧
      DownloadEngine.create_command "5" "https://example/v" "/tmp/out" none false =
        Except.error "Unknown selection: 5" :=
  ⟨rfl, rfl⟩

/-- C7: percent values stored via the web state's set_progress and the
desktop UI's progress clamp are always the input clamped to the range 0 to
100: 150 stores as 100, -5 stores as 0, and in-range values are stored
unchanged. -/
theorem C7_progress_clamped (st : Web.DownloadState) (v : Rat) :
    (st.set_progress 150).progress = 100 ∧
      (st.set_progress (-5)).progress = 0 ∧
      (0 ≤ v → v ≤ 100 → (st.set_progress v).progress = v ∧ Ui.bounded_progress v = v) ∧
      (0 ≤ (st.set_progress v).progress ∧ (st.set_progress v).progress ≤ 100) ∧
      (0 ≤ Ui.bounded_progress v ∧ Ui.bounded_progress v ≤ 100) := by
  unfold Web.DownloadState.set_progress Ui.bounded_progress
  simp only
  refine ⟨?_, ?_, fun h1 h2 => ?_, ⟨?_, ?_⟩, ⟨?_, ?_⟩⟩
  · rw [show min (150 : Rat) 100 = 100 by norm_num [min_def], max_eq_right]
    norm_num
  · rw [show min (-5 : Rat) 100 = -5 by norm_num [min_def], max_eq_left]
    norm_num
  · rw [min_eq_left h2, max_eq_right h1]
    exact ⟨rfl, rfl⟩
  · exact le_max_left 0 _
  · exact max_le (by norm_num) (min_le_right v 100)
  · exact le_max_left 0 _
  · exact max_le (by norm_num) (min_le_right v 100)

/-- C7 witness at the initial web state and the in-range value 37. -/
theorem C7_progress_clamped_witness :
    (Web.initialState.set_progress 150).progress = 100 ∧
      (Web.initialState.set_progress 37).progress = 37 ∧
      Ui.bounded_progress 37 = 37 :=
  ⟨(C7_progress_clamped Web.initialState 37).1,
    ((C7_progress_clamped Web.initialState 37).2.2.1 (by norm_num) (by norm_num)).1,
    ((C7_progress_clamped Web.initialState 37).2.2.1 (by norm_num) (by norm_num)).2⟩
theorem modeArgs_resolve {mode : String} {margs : List String}
    (h : DownloadEngine.MODE_TO_ARGS mode = some margs) :
    (mode = "single_song" ∨ mode = "single_video" ∨
      mode = "playlist_song" ∨ mode = "playlist_video") ∧
      ("--yes-playlist" ∈ margs ↔ DownloadEngine.specModeIsPlaylist mode = true) ∧
      "--cookies" ∉ margs ∧ "--cookies-from-browser" ∉ margs := by
  unfold DownloadEngine.MODE_TO_ARGS at h
  split_ifs at h with h1 h2 h3 h4
  · subst h1; injection h with h; subst h
    exact ⟨by simp, by decide, by decide, by decide⟩
  · subst h2; injection h with h; subst h
    exact ⟨by simp, by decide, by decide, by decide⟩
  · subst h3; injection h with h; subst h
    exact ⟨by simp, by decide, by decide, by decide⟩
  · subst h4; injection h with h; subst h
    exact ⟨by simp, by decide, by decide, by decide⟩

theorem build_command_ok {mode url destination : String} {cookies_path : Option String}
    {home_cookies_exists : Bool} {cmd : List String}
    (h : DownloadEngine.build_command mode url destination cookies_path home_cookies_exists =
      Except.ok cmd) :
    ∃ margs, DownloadEngine.MODE_TO_ARGS mode = some margs ∧
      cmd = ["yt-dlp"] ++ DownloadEngine.BASE_ARGS ++
        DownloadEngine.cookieArgs cookies_path home_cookies_exists ++
        ["-P", destination] ++ margs ++ [url] := by
  unfold DownloadEngine.build_command at h
  cases hm : DownloadEngine.MODE_TO_ARGS mode with
  | none => rw [hm] at h; cases h
  | some margs =>
    rw [hm] at h
    exact ⟨margs, rfl, (Except.ok.inj h).symm⟩

theorem cookieArgs_elems (cookies_path : Option String) (home_cookies_exists : Bool) :
    DownloadEngine.cookieArgs cookies_path home_cookies_exists = [] ∨
      DownloadEngine.cookieArgs cookies_path home_cookies_exists =
        ["--cookies-from-browser", "Chrome"] ∨
      ∃ p, cookies_path = some p ∧ p ≠ "" ∧
        DownloadEngine.cookieArgs cookies_path home_cookies_exists = ["--cookies", p] := by
  unfold DownloadEngine.cookieArgs
  cases cookies_path with
  | none => cases home_cookies_exists <;> simp
  | some p =>
    by_cases hp : p = ""
    · cases home_cookies_exists <;> simp [hp]
    · simp [hp]

theorem cookieArgs_cookies_iff {cookies_path : Option String} {home_cookies_exists : Bool}
    (hc : ∀ p, cookies_path = some p → p ≠ "--cookies") :
    ("--cookies" ∈ DownloadEngine.cookieArgs cookies_path home_cookies_exists ↔
      DownloadEngine.cpTruthy cookies_path = true) := by
  unfold DownloadEngine.cookieArgs DownloadEngine.cpTruthy
  cases cookies_path with
  | none => cases home_cookies_exists <;> simp
  | some p =>
    by_cases hp : p = ""
    · cases home_cookies_exists <;> simp [hp]
    · simp [hp]

theorem cookieArgs_browser_iff {cookies_path : Option String} {home_cookies_exists : Bool}
    (hc : ∀ p, cookies_path = some p → p ≠ "--cookies-from-browser") :
    ("--cookies-from-browser" ∈ DownloadEngine.cookieArgs cookies_path home_cookies_exists ↔
      (DownloadEngine.cpTruthy cookies_path = false ∧ home_cookies_exists = true)) := by
  unfold DownloadEngine.cookieArgs DownloadEngine.cpTruthy
  cases cookies_path with
  | none => cases home_cookies_exists <;> simp
  | some p =>
    by_cases hp : p = ""
    · cases home_cookies_exists <;> simp [hp]
    · simp [hp, hc p rfl, Ne.symm (hc p rfl)]

theorem cookieArgs_no_playlist_flag {cookies_path : Option String} {home_cookies_exists : Bool}
    (hc : ∀ p, cookies_path = some p → p ≠ "--yes-playlist") :
    "--yes-playlist" ∉ DownloadEngine.cookieArgs cookies_path home_cookies_exists := by
  rcases cookieArgs_elems cookies_path home_cookies_exists with h | h | ⟨p, hp, hne, h⟩ <;>
    rw [h]
  · simp
  · decide
  · simp
    exact Ne.symm (hc p hp)

/-- C1 counterexample: the plan built for the playlist-song mode carries
both the base no-playlist flag and the appended playlist-enabled flag, so
the built plan does not carry exactly one of the two flags. -/
theorem C1_counterexample :
    "--no-playlist" ∈
        (DownloadEngine.build_command "playlist_song" "https://example/v" "/tmp/out"
            none false).toOption.getD [] ∧
      "--yes-playlist" ∈
        (DownloadEngine.build_command "playlist_song" "https://example/v" "/tmp/out"
            none false).toOption.getD [] ∧
      (DownloadEngine.build_command "playlist_song" "https://example/v" "/tmp/out"
          none false).isOk = true := by
  refine ⟨by decide, by decide, rfl⟩

/-- C1 (amended): the yt-dlp option dictionary built by _build_ydl_opts
carries a noplaylist option equal to the negation of the mode's
is_playlist attribute, exactly; the subprocess command built by
build_command contains the playlist-enabled flag exactly for the playlist
modes of the closed set, but every such command also contains the base
no-playlist flag, so playlist-mode plans carry both flags rather than
exactly one. -/
theorem C1_playlist_flag (r : Downloader.DownloadRequest)
    (mode url destination : String) (cookies_path : Option String)
    (home_cookies_exists : Bool) (cmd : List String)
    (hu : url ≠ "--yes-playlist") (hd : destination ≠ "--yes-playlist")
    (hc : ∀ p, cookies_path = some p → p ≠ "--yes-playlist")
    (h : DownloadEngine.build_command mode url destination cookies_path home_cookies_exists =
      Except.ok cmd) :
    (Downloader.build_ydl_opts r).noplaylist = !r.mode.is_playlist ∧
      "--no-playlist" ∈ cmd ∧
      ("--yes-playlist" ∈ cmd ↔ DownloadEngine.specModeIsPlaylist mode = true) := by
  obtain ⟨margs, hm, hcmd⟩ := build_command_ok h
  obtain ⟨_, hiff, _, _⟩ := modeArgs_resolve hm
  subst hcmd
  refine ⟨rfl, by simp [DownloadEngine.BASE_ARGS], ?_⟩
  have h1 : "--yes-playlist" ∉ DownloadEngine.BASE_ARGS := by decide
  have h2 := @cookieArgs_no_playlist_flag cookies_path home_cookies_exists hc
  rw [← hiff]
  simp [List.mem_append, h1, h2, Ne.symm hd, Ne.symm hu]

/-- C1 witness at the playlist-song mode. -/
theorem C1_playlist_flag_witness :
    ("https://example/v" : String) ≠ "--yes-playlist" ∧
      "--no-playlist" ∈
        (DownloadEngine.build_command "playlist_song" "https://example/v" "/tmp/out"
            none false).toOption.getD [] ∧
      ("--yes-playlist" ∈
          (DownloadEngine.build_command "playlist_song" "https://example/v" "/tmp/out"
              none false).toOption.getD [] ↔
        DownloadEngine.specModeIsPlaylist "playlist_song" = true) :=
  ⟨by decide,
    (C1_playlist_flag { url := "u", save_path := "/d", mode := Downloader.DownloadMode.single_song }
        "playlist_song" "https://example/v" "/tmp/out" none false _
        (by decide) (by decide) (fun p hp => Option.noConfusion hp) rfl).2⟩

theorem engine_auth_iff (mode url destination : String) (cookies_path : Option String)
    (home_cookies_exists : Bool) (cmd : List String)
    (hu1 : url ≠ "--cookies") (hu2 : url ≠ "--cookies-from-browser")
    (hd1 : destination ≠ "--cookies") (hd2 : destination ≠ "--cookies-from-browser")
    (hc1 : ∀ p, cookies_path = some p → p ≠ "--cookies")
    (hc2 : ∀ p, cookies_path = some p → p ≠ "--cookies-from-browser")
    (h : DownloadEngine.build_command mode url destination cookies_path home_cookies_exists =
      Except.ok cmd) :
    ("--cookies" ∈ cmd ↔ DownloadEngine.cpTruthy cookies_path = true) ∧
      ("--cookies-from-browser" ∈ cmd ↔
        (DownloadEngine.cpTruthy cookies_path = false ∧ home_cookies_exists = true)) ∧
      ¬("--cookies" ∈ cmd ∧ "--cookies-from-browser" ∈ cmd) := by
  obtain ⟨margs, hm, hcmd⟩ := build_command_ok h
  obtain ⟨_, _, hmc, hmb⟩ := modeArgs_resolve hm
  have hb1 : "--cookies" ∉ DownloadEngine.BASE_ARGS := by decide
  have hb2 : "--cookies-from-browser" ∉ DownloadEngine.BASE_ARGS := by decide
  have hco := @cookieArgs_cookies_iff cookies_path home_cookies_exists hc1
  have hbr := @cookieArgs_browser_iff cookies_path home_cookies_exists hc2
  subst hcmd
  have hA : "--cookies" ∈ (["yt-dlp"] ++ DownloadEngine.BASE_ARGS ++
      DownloadEngine.cookieArgs cookies_path home_cookies_exists ++
      ["-P", destination] ++ margs ++ [url]) ↔
      DownloadEngine.cpTruthy cookies_path = true := by
    rw [← hco]
    simp [List.mem_append, hb1, hmc, Ne.symm hd1, Ne.symm hu1]
  have hB : "--cookies-from-browser" ∈ (["yt-dlp"] ++ DownloadEngine.BASE_ARGS ++
      DownloadEngine.cookieArgs cookies_path home_cookies_exists ++
      ["-P", destination] ++ margs ++ [url]) ↔
      (DownloadEngine.cpTruthy cookies_path = false ∧ home_cookies_exists = true) := by
    rw [← hbr]
    simp [List.mem_append, hb2, hmb, Ne.symm hd2, Ne.symm hu2]
  refine ⟨hA, hB, ?_⟩
  rintro ⟨ha, hb⟩
  have t1 := hA.mp ha
  have t2 := (hB.mp hb).1
  rw [t1] at t2
  cases t2

theorem cookieArgs_same : Download.cookieArgs = DownloadEngine.cookieArgs := rfl

theorem legacy_auth_iff (choice url destination : String) (cookies_path : Option String)
    (home_cookies_exists : Bool) (cmd : List String)
    (hu1 : url ≠ "--cookies") (hu2 : url ≠ "--cookies-from-browser")
    (hd1 : destination ≠ "--cookies") (hd2 : destination ≠ "--cookies-from-browser")
    (hc1 : ∀ p, cookies_path = some p → p ≠ "--cookies")
    (hc2 : ∀ p, cookies_path = some p → p ≠ "--cookies-from-browser")
    (h : Download.create_command choice url destination cookies_path home_cookies_exists =
      some cmd) :
    ("--cookies" ∈ cmd ↔ DownloadEngine.cpTruthy cookies_path = true) ∧
      ("--cookies-from-browser" ∈ cmd ↔
        (DownloadEngine.cpTruthy cookies_path = false ∧ home_cookies_exists = true)) ∧
      ¬("--cookies" ∈ cmd ∧ "--cookies-from-browser" ∈ cmd) := by
  have hco := @cookieArgs_cookies_iff cookies_path home_cookies_exists hc1
  have hbr := @cookieArgs_browser_iff cookies_path home_cookies_exists hc2
  rw [← cookieArgs_same] at hco hbr
  have hua1 : ¬("--cookies" = USER_AGENT) := by decide
  have hua2 : ¬("--cookies-from-browser" = USER_AGENT) := by decide
  have main : ("--cookies" ∈ cmd ↔ DownloadEngine.cpTruthy cookies_path = true) ∧
      ("--cookies-from-browser" ∈ cmd ↔
        (DownloadEngine.cpTruthy cookies_path = false ∧ home_cookies_exists = true)) := by
    simp only [Download.create_command] at h
    split_ifs at h <;>
      (injection h with h; subst h
       constructor
       · rw [← hco]
         simp [List.mem_append, Ne.symm hd1, Ne.symm hu1, hua1]
       · rw [← hbr]
         simp [List.mem_append, Ne.symm hd2, Ne.symm hu2, hua2])
  refine ⟨main.1, main.2, ?_⟩
  rintro ⟨ha, hb⟩
  have t1 := main.1.mp ha
  have t2 := (main.2.mp hb).1
  rw [t1] at t2
  cases t2

/-- C8 counterexample: the dict-based plan builder, which the claim also
covers, has no fallback branch.  For a request with no supplied
credentials, the built option dictionary carries no authentication
reference — the builder consults only the request, so this holds whether
or not the well-known default credentials file exists on disk — while the
claim's second branch requires a fallback reference in the state where
that file exists. -/
theorem C8_counterexample :
    (Downloader.build_ydl_opts
        { url := "https://example/v", save_path := "/tmp/out",
          mode := Downloader.DownloadMode.single_song }).cookiefile = none ∧
      specAuthReference none true ≠ none :=
  ⟨rfl, by decide⟩

/-- C8 (amended): the subprocess command builders (build_command of
download_engine.py and create_command of download.py) take exactly one of
three authentication branches: a supplied (truthy) credentials file is
referenced explicitly via the cookies option; otherwise, when the
well-known default credentials file exists on disk, the fallback is
referenced (as Chrome browser cookies — the file's existence is only the
trigger); otherwise the command carries no authentication option — and
never both the explicit reference and the fallback.  The dict-based plan
builder _build_ydl_opts, by contrast, has only two branches: its
cookiefile option is exactly the supplied credentials path, and with none
supplied the plan carries no authentication reference, the default
credentials file never being consulted. -/
theorem C8_auth_exclusive :
    (∀ r : Downloader.DownloadRequest,
        (Downloader.build_ydl_opts r).cookiefile = r.cookies_path) ∧
      (∀ (mode url destination : String) (cookies_path : Option String)
          (home_cookies_exists : Bool) (cmd : List String),
        url ≠ "--cookies" → url ≠ "--cookies-from-browser" →
        destination ≠ "--cookies" → destination ≠ "--cookies-from-browser" →
        (∀ p, cookies_path = some p → p ≠ "--cookies") →
        (∀ p, cookies_path = some p → p ≠ "--cookies-from-browser") →
        DownloadEngine.build_command mode url destination cookies_path home_cookies_exists =
          Except.ok cmd →
        (("--cookies" ∈ cmd ↔ DownloadEngine.cpTruthy cookies_path = true) ∧
          ("--cookies-from-browser" ∈ cmd ↔
            (DownloadEngine.cpTruthy cookies_path = false ∧ home_cookies_exists = true)) ∧
          ¬("--cookies" ∈ cmd ∧ "--cookies-from-browser" ∈ cmd))) ∧
      (∀ (choice url destination : String) (cookies_path : Option String)
          (home_cookies_exists : Bool) (cmd : List String),
        url ≠ "--cookies" → url ≠ "--cookies-from-browser" →
        destination ≠ "--cookies" → destination ≠ "--cookies-from-browser" →
        (∀ p, cookies_path = some p → p ≠ "--cookies") →
        (∀ p, cookies_path = some p → p ≠ "--cookies-from-browser") →
        Download.create_command choice url destination cookies_path home_cookies_exists =
          some cmd →
        (("--cookies" ∈ cmd ↔ DownloadEngine.cpTruthy cookies_path = true) ∧
          ("--cookies-from-browser" ∈ cmd ↔
            (DownloadEngine.cpTruthy cookies_path = false ∧ home_cookies_exists = true)) ∧
          ¬("--cookies" ∈ cmd ∧ "--cookies-from-browser" ∈ cmd))) :=
  ⟨fun _ => rfl,
    fun mode url destination cookies_path home_cookies_exists cmd hu1 hu2 hd1 hd2 hc1 hc2 h =>
      engine_auth_iff mode url destination cookies_path home_cookies_exists cmd
        hu1 hu2 hd1 hd2 hc1 hc2 h,
    fun choice url destination cookies_path home_cookies_exists cmd hu1 hu2 hd1 hd2 hc1 hc2 h =>
      legacy_auth_iff choice url destination cookies_path home_cookies_exists cmd
        hu1 hu2 hd1 hd2 hc1 hc2 h⟩

/-- C8 witness: a supplied cookies file picks the explicit reference in
the engine command even though the fallback file exists; the legacy
command with nothing supplied and the fallback file present picks the
fallback reference; the dict plan carries exactly the supplied path. -/
theorem C8_auth_exclusive_witness :
    (Downloader.build_ydl_opts
        { url := "u", save_path := "/d",
          mode := Downloader.DownloadMode.single_song,
          cookies_path := some "/tmp/c.txt" }).cookiefile = some "/tmp/c.txt" ∧
      ("--cookies" ∈
          (DownloadEngine.build_command "single_song" "https://example/v" "/tmp/out"
              (some "/tmp/c.txt") true).toOption.getD [] ↔
        DownloadEngine.cpTruthy (some "/tmp/c.txt") = true) ∧
      ("--cookies-from-browser" ∈
          (Download.create_command "2" "https://example/v" "/tmp/out"
              none true).getD [] ↔
        (DownloadEngine.cpTruthy (none : Option String) = false ∧ (true : Bool) = true)) :=
  ⟨C8_auth_exclusive.1
      { url := "u", save_path := "/d",
        mode := Downloader.DownloadMode.single_song,
        cookies_path := some "/tmp/c.txt" },
    (C8_auth_exclusive.2.1 "single_song" "https://example/v" "/tmp/out"
        (some "/tmp/c.txt") true _
        (by decide) (by decide) (by decide) (by decide)
        (fun p hp => by injection hp with hp; rw [← hp]; decide)
        (fun p hp => by injection hp with hp; rw [← hp]; decide) rfl).1,
    (C8_auth_exclusive.2.2 "2" "https://example/v" "/tmp/out" none true _
        (by decide) (by decide) (by decide) (by decide)
        (fun p hp => Option.noConfusion hp)
        (fun p hp => Option.noConfusion hp) rfl).2.1⟩

/-- C9: for a single-audio request at bitrate 256, the built option
dictionary selects the audio format chain (m4a, then webm, then best over
https), contains the extract-audio post-processing step at preferred
quality "256", and has the playlist option disabled. -/
theorem C9_single_audio_plan (url save_path : String) :
    (Downloader.build_ydl_opts
          { url := url, save_path := save_path,
            mode := Downloader.DownloadMode.single_song,
            audio_bitrate := "256" }).format = Downloader.AUDIO_FORMAT_SELECTOR ∧
      ({ key := "FFmpegExtractAudio", preferredcodec := some "mp3",
          preferredquality := some "256" } : Downloader.Postprocessor) ∈
        (Downloader.build_ydl_opts
            { url := url, save_path := save_path,
              mode := Downloader.DownloadMode.single_song,
              audio_bitrate := "256" }).postprocessors ∧
      (Downloader.build_ydl_opts
          { url := url, save_path := save_path,
            mode := Downloader.DownloadMode.single_song,
            audio_bitrate := "256" }).noplaylist = true := by
  refine ⟨rfl, ?_, rfl⟩
  have hpp : (Downloader.build_ydl_opts
      { url := url, save_path := save_path,
        mode := Downloader.DownloadMode.single_song,
        audio_bitrate := "256" }).postprocessors =
      ([{ key := "FFmpegExtractAudio", preferredcodec := some "mp3",
          preferredquality := some "256" },
        { key := "EmbedThumbnail" },
        { key := "FFmpegMetadata" }] : List Downloader.Postprocessor) := rfl
  rw [hpp]
  exact List.mem_cons_self _ _

/-- C10: the thumbnail-embedding step is attached exactly when thumbnail
embedding is requested and the mode is an audio mode, and the metadata
step is attached exactly when metadata embedding is requested, for every
request. -/
theorem C10_postprocessor_gating (r : Downloader.DownloadRequest) :
    (("EmbedThumbnail" ∈ (Downloader.build_ydl_opts r).postprocessors.map
          Downloader.Postprocessor.key) ↔
        (r.embed_thumbnail = true ∧ r.mode.is_audio = true)) ∧
      (("FFmpegMetadata" ∈ (Downloader.build_ydl_opts r).postprocessors.map
          Downloader.Postprocessor.key) ↔
        r.embed_metadata = true) := by
  rcases r with ⟨url, sp, mode, ab, vr, et, em, cp⟩
  cases mode <;> cases et <;> cases em <;>
    simp [Downloader.build_ydl_opts, Downloader.audio_opts, Downloader.video_opts,
      Downloader.compatibility_opts, Downloader.DownloadMode.is_audio,
      Downloader.DownloadMode.is_playlist]
